import Mathlib

/-!
Verification development for the antigravity-quota-extension repository.

The core under study is the metrics client (discoverServer, fetchMetrics,
formatResetTime) and the extension refresh handler (refreshData).  The
TypeScript is embedded shallowly: the operating-system boundary (process
listing, socket listing, the probe curl calls) is an explicit environment
record, the single HTTP exchange of fetchMetrics is an explicit outcome
value (response / socket error / timeout), and JavaScript string and JSON
operations are modelled by executable Lean functions.
-/

/-- Whitespace class used by the JavaScript string helpers (space, tab,
newline, carriage return, vertical tab, form feed). -/
def jsSpace (c : Char) : Bool :=
  c = ' ' || c = '\t' || c = '\n' || c = '\r' || c = '\x0b' || c = '\x0c'

/-- Model of the JavaScript String.trim method: drop whitespace from both
ends. -/
def jsTrim (s : String) : String :=
  String.mk (((s.data.dropWhile jsSpace).reverse.dropWhile jsSpace).reverse)

/-- Split a character list at every occurrence of the given character,
as the JavaScript split with a single-character separator does. -/
def splitChar (sep : Char) : List Char → List (List Char)
  | [] => [[]]
  | x :: rest =>
    let r := splitChar sep rest
    if x = sep then [] :: r
    else
      match r with
      | h :: t => (x :: h) :: t
      | [] => [[x]]

/-- The first line of the trimmed process-listing output: models
psOutput.split over a newline, index zero, where psOutput is the trimmed
raw output. -/
def firstLineOf (raw : String) : String :=
  String.mk ((splitChar '\n' (jsTrim raw).data).headD [])

/-- Accumulating worker for whitespace-run splitting. -/
def wordsByGo (p : Char → Bool) : List Char → List Char → List (List Char)
  | [], acc => if acc.isEmpty then [] else [acc.reverse]
  | c :: rest, acc =>
    if p c then
      if acc.isEmpty then wordsByGo p rest []
      else acc.reverse :: wordsByGo p rest (([] : List Char))
    else wordsByGo p rest (c :: acc)

/-- Model of the JavaScript split on a whitespace-run regular expression,
applied to an already trimmed string: the list of maximal nonempty
whitespace-free tokens. -/
def splitWsTrimmed (s : String) : List String :=
  (wordsByGo jsSpace s.data []).map String.mk

/-- Hexadecimal digit value, if any. -/
def hexVal (c : Char) : Option Nat :=
  if c.isDigit then some (c.toNat - 48)
  else if 'a' ≤ c && c ≤ 'f' then some (c.toNat - 87)
  else if 'A' ≤ c && c ≤ 'F' then some (c.toNat - 55)
  else none

/-- Model of isNaN applied to parseInt of a whitespace-free token: true
when parseInt would yield NaN, that is when after an optional sign there
is no leading digit (with the hexadecimal 0x form needing a hex digit). -/
def jsParseIntIsNaN (s : String) : Bool :=
  let cs :=
    match s.data with
    | '+' :: r => r
    | '-' :: r => r
    | cs0 => cs0
  match cs with
  | '0' :: x :: r =>
    if x = 'x' || x = 'X' then
      match r with
      | c :: _ => !(hexVal c).isSome
      | [] => true
    else false
  | c :: _ => !c.isDigit
  | [] => true

/-- Character class of the token capture group in the csrf-token pattern:
ASCII letters, digits and the hyphen. -/
def isTokenChar (c : Char) : Bool :=
  c.isAlpha || c.isDigit || c = '-'

/-- The literal part of the csrf-token pattern. -/
def csrfLit : List Char := "--csrf_token".data

/-- Try to match the csrf-token pattern at the start of the character
list: the literal flag, one or more whitespace characters, then one or
more token characters, whose run is the captured token. -/
def matchCsrfAt (cs : List Char) : Option String :=
  if csrfLit.isPrefixOf cs then
    let rest := cs.drop csrfLit.length
    let sp := rest.takeWhile jsSpace
    if sp.isEmpty then none
    else
      let tok := (rest.dropWhile jsSpace).takeWhile isTokenChar
      if tok.isEmpty then none else some (String.mk tok)
  else none

/-- First match of the csrf-token pattern in the line, scanning start
positions left to right as the regular-expression engine does. -/
def csrfScan : List Char → Option String
  | [] => none
  | c :: rest =>
    match matchCsrfAt (c :: rest) with
    | some t => some t
    | none => csrfScan rest

/-- Try to match the port pattern at the start of the character list: a
colon, one or more digits (the capture), then a whitespace character. -/
def portMatchAt (cs : List Char) : Option String :=
  match cs with
  | ':' :: rest =>
    let ds := rest.takeWhile Char.isDigit
    if ds.isEmpty then none
    else
      match rest.dropWhile Char.isDigit with
      | c :: _ => if jsSpace c then some (String.mk ds) else none
      | [] => none
  | _ => none

/-- First match of the port pattern in a line, scanning start positions
left to right. -/
def portScan : List Char → Option String
  | [] => none
  | c :: rest =>
    match portMatchAt (c :: rest) with
    | some p => some p
    | none => portScan rest

/-- Ports extracted from the socket-listing output: the output is
trimmed, split into lines, and each line contributes the capture of its
first port-pattern match, if any. -/
def extractPorts (out : String) : List String :=
  (splitChar '\n' (jsTrim out).data).filterMap portScan

/-- The opening curly brace character. -/
def lbrace : Char := '\x7b'

/-- The closing curly brace character. -/
def rbrace : Char := '\x7d'

/-- JSON values.  Numbers keep their source literal: the fetcher is a
structural passthrough and never interprets numeric contents, so the
literal is the faithful representation of what is carried through. -/
inductive Json where
  | null
  | bool (b : Bool)
  | num (lit : String)
  | str (s : String)
  | arr (elems : List Json)
  | obj (fields : List (String × Json))

/-- JSON insignificant whitespace. -/
def jsonWs (c : Char) : Bool :=
  c = ' ' || c = '\t' || c = '\n' || c = '\r'

/-- Drop leading JSON whitespace. -/
def skipWs (cs : List Char) : List Char := cs.dropWhile jsonWs

/-- Parse the body of a JSON string after the opening quote, consuming
the closing quote and decoding escapes.  Fuel bounds the recursion. -/
def parseJsonStr : Nat → List Char → Option (String × List Char)
  | 0, _ => none
  | _, [] => none
  | fuel+1, c :: rest =>
    if c = '"' then some ("", rest)
    else if c = '\\' then
      match rest with
      | [] => none
      | e :: rest2 =>
        let cont := fun (ch : Char) (rem : List Char) =>
          match parseJsonStr fuel rem with
          | some (s, r) => some (String.mk (ch :: s.data), r)
          | none => none
        if e = '"' then cont '"' rest2
        else if e = '\\' then cont '\\' rest2
        else if e = '/' then cont '/' rest2
        else if e = 'b' then cont (Char.ofNat 8) rest2
        else if e = 'f' then cont (Char.ofNat 12) rest2
        else if e = 'n' then cont '\n' rest2
        else if e = 'r' then cont '\r' rest2
        else if e = 't' then cont '\t' rest2
        else if e = 'u' then
          match rest2 with
          | h1 :: h2 :: h3 :: h4 :: rest3 =>
            match hexVal h1, hexVal h2, hexVal h3, hexVal h4 with
            | some a, some b, some c2, some d =>
              cont (Char.ofNat (a * 4096 + b * 256 + c2 * 16 + d)) rest3
            | _, _, _, _ => none
          | _ => none
        else none
    else if c.toNat < 32 then none
    else
      match parseJsonStr fuel rest with
      | some (s, r) => some (String.mk (c :: s.data), r)
      | none => none

/-- Split a leading digit run from the rest. -/
def parseDigits (cs : List Char) : List Char × List Char :=
  (cs.takeWhile Char.isDigit, cs.dropWhile Char.isDigit)

/-- Parse the optional exponent part of a JSON number and return the full
literal assembled from the part already read. -/
def parseExpPart (acc : List Char) (cs : List Char) : Option (String × List Char) :=
  match cs with
  | c :: r =>
    if c = 'e' || c = 'E' then
      let (sgn, r1) :=
        match r with
        | '+' :: r2 => (['+'], r2)
        | '-' :: r2 => (['-'], r2)
        | _ => (([] : List Char), r)
      let (ds, r2) := parseDigits r1
      if ds.isEmpty then none
      else some (String.mk (acc ++ c :: sgn ++ ds), r2)
    else some (String.mk acc, cs)
  | [] => some (String.mk acc, cs)

/-- Parse a JSON number literal per the JSON grammar: optional minus,
integer part without a redundant leading zero, optional fraction,
optional exponent. -/
def parseNumLit (cs : List Char) : Option (String × List Char) :=
  let (signChars, cs1) :=
    match cs with
    | '-' :: r => ((['-'] : List Char), r)
    | _ => (([] : List Char), cs)
  let (intChars, cs2) :=
    match cs1 with
    | '0' :: r => ((['0'] : List Char), r)
    | _ => parseDigits cs1
  if intChars.isEmpty then none
  else
    match cs2 with
    | '.' :: r =>
      let (fd, cs3) := parseDigits r
      if fd.isEmpty then none
      else parseExpPart (signChars ++ intChars ++ '.' :: fd) cs3
    | _ => parseExpPart (signChars ++ intChars) cs2

/-- Parse a comma-separated nonempty run of array elements after the
opening bracket (the empty array is handled by the caller), consuming
the closing bracket. -/
def parseElems (p : List Char → Option (Json × List Char)) :
    Nat → List Char → Option (List Json × List Char)
  | 0, _ => none
  | fuel+1, cs =>
    match p (skipWs cs) with
    | none => none
    | some (v, rest) =>
      match skipWs rest with
      | ',' :: rest2 =>
        match parseElems p fuel rest2 with
        | some (vs, r) => some (v :: vs, r)
        | none => none
      | ']' :: rest2 => some ([v], rest2)
      | _ => none

/-- Parse a comma-separated nonempty run of object members after the
opening brace (the empty object is handled by the caller), consuming
the closing brace. -/
def parseFields (p : List Char → Option (Json × List Char)) :
    Nat → List Char → Option (List (String × Json) × List Char)
  | 0, _ => none
  | fuel+1, cs =>
    match skipWs cs with
    | '"' :: rest =>
      match parseJsonStr (rest.length + 1) rest with
      | none => none
      | some (k, rest1) =>
        match skipWs rest1 with
        | ':' :: rest2 =>
          match p (skipWs rest2) with
          | none => none
          | some (v, rest3) =>
            match skipWs rest3 with
            | ',' :: rest4 =>
              match parseFields p fuel rest4 with
              | some (fs, r) => some ((k, v) :: fs, r)
              | none => none
            | c :: rest4 =>
              if c = rbrace then some ([(k, v)], rest4) else none
            | [] => none
        | _ => none
    | _ => none

/-- Parse one JSON value from the head of the character list. -/
def parseVal : Nat → List Char → Option (Json × List Char)
  | 0, _ => none
  | fuel+1, cs =>
    match cs with
    | [] => none
    | c :: rest =>
      if c = 'n' then
        match rest with
        | 'u' :: 'l' :: 'l' :: r => some (Json.null, r)
        | _ => none
      else if c = 't' then
        match rest with
        | 'r' :: 'u' :: 'e' :: r => some (Json.bool true, r)
        | _ => none
      else if c = 'f' then
        match rest with
        | 'a' :: 'l' :: 's' :: 'e' :: r => some (Json.bool false, r)
        | _ => none
      else if c = '"' then
        match parseJsonStr (rest.length + 1) rest with
        | some (s, r) => some (Json.str s, r)
        | none => none
      else if c = '[' then
        let cs2 := skipWs rest
        match cs2 with
        | ']' :: r => some (Json.arr [], r)
        | _ =>
          match parseElems (parseVal fuel) fuel cs2 with
          | some (vs, r) => some (Json.arr vs, r)
          | none => none
      else if c = lbrace then
        let cs2 := skipWs rest
        match cs2 with
        | d :: r =>
          if d = rbrace then some (Json.obj [], r)
          else
            match parseFields (parseVal fuel) fuel cs2 with
            | some (fs, r2) => some (Json.obj fs, r2)
            | none => none
        | [] => none
      else
        match parseNumLit cs with
        | some (lit, r) => some (Json.num lit, r)
        | none => none

/-- Model of JSON.parse: parse one value surrounded by optional
whitespace; any leftover input or syntax error yields none (the
JavaScript call would throw). -/
def jsonParse (s : String) : Option Json :=
  match parseVal (s.data.length + 1) (skipWs s.data) with
  | some (v, rest) => if (skipWs rest).isEmpty then some v else none
  | none => none

/-- Look up an object field by key (first occurrence). -/
def lookupJ (fs : List (String × Json)) (k : String) : Option Json :=
  match fs with
  | [] => none
  | (k2, v) :: rest => if k2 = k then some v else lookupJ rest k

/-- Whether the value is a JSON string. -/
def isJsonStr : Json → Bool
  | Json.str _ => true
  | _ => false

/-- Whether the value is a JSON number. -/
def isJsonNum : Json → Bool
  | Json.num _ => true
  | _ => false

/-- Whether the object has a string field of the given name. -/
def hasStrField (fs : List (String × Json)) (k : String) : Bool :=
  match lookupJ fs k with
  | some v => isJsonStr v
  | none => false

/-- Whether the object has a number field of the given name. -/
def hasNumField (fs : List (String × Json)) (k : String) : Bool :=
  match lookupJ fs k with
  | some v => isJsonNum v
  | none => false

/-- Shape of the QuotaInfo interface declared by the client. -/
def isQuotaInfo : Json → Bool
  | Json.obj fs => hasNumField fs "remainingFraction" && hasStrField fs "resetTime"
  | _ => false

/-- Shape of the modelOrAlias member of the ModelConfig interface. -/
def isModelOrAlias : Json → Bool
  | Json.obj fs => hasStrField fs "model"
  | _ => false

/-- Shape of the ModelConfig interface declared by the client; the
optional members are checked only when present. -/
def isModelConfig : Json → Bool
  | Json.obj fs =>
    hasStrField fs "label" &&
    (match lookupJ fs "modelOrAlias" with
     | some v => isModelOrAlias v
     | none => false) &&
    (match lookupJ fs "quotaInfo" with
     | some v => isQuotaInfo v
     | none => true) &&
    (match lookupJ fs "supportsImages" with
     | some (Json.bool _) => true
     | some _ => false
     | none => true) &&
    (match lookupJ fs "isRecommended" with
     | some (Json.bool _) => true
     | some _ => false
     | none => true)
  | _ => false

/-- Shape of the planInfo member of the PlanStatus interface. -/
def isPlanInfo : Json → Bool
  | Json.obj fs =>
    hasStrField fs "planName" && hasNumField fs "monthlyPromptCredits" &&
      hasNumField fs "monthlyFlowCredits"
  | _ => false

/-- Shape of the PlanStatus interface declared by the client. -/
def isPlanStatus : Json → Bool
  | Json.obj fs =>
    (match lookupJ fs "planInfo" with
     | some v => isPlanInfo v
     | none => false) &&
    hasNumField fs "availablePromptCredits" && hasNumField fs "availableFlowCredits"
  | _ => false

/-- Shape of the userTier member of the UserStatus interface. -/
def isUserTier : Json → Bool
  | Json.obj fs =>
    hasStrField fs "id" && hasStrField fs "name" && hasStrField fs "description"
  | _ => false

/-- Shape of the cascadeModelConfigData member of the UserStatus
interface. -/
def isCascadeData : Json → Bool
  | Json.obj fs =>
    match lookupJ fs "clientModelConfigs" with
    | some (Json.arr xs) => xs.all isModelConfig
    | _ => false
  | _ => false

/-- Shape of the UserStatus interface declared by the client. -/
def isUserStatus : Json → Bool
  | Json.obj fs =>
    hasStrField fs "name" && hasStrField fs "email" &&
    (match lookupJ fs "planStatus" with
     | some v => isPlanStatus v
     | none => false) &&
    (match lookupJ fs "cascadeModelConfigData" with
     | some v => isCascadeData v
     | none => false) &&
    (match lookupJ fs "userTier" with
     | some v => isUserTier v
     | none => false)
  | _ => false

/-- Shape of the MetricsResponse interface declared by the client: a
top-level object with a userStatus member of the UserStatus shape. -/
def isMetricsResponseShape : Json → Bool
  | Json.obj fs =>
    match lookupJ fs "userStatus" with
    | some v => isUserStatus v
    | none => false
  | _ => false

/-- Outcome of one execSync call at the operating-system boundary: the
produced standard output, or a thrown error (nonzero exit, timeout). -/
inductive ExecResult where
  | ok (out : String)
  | err
deriving DecidableEq

/-- Environment of one discovery run: the outcome of the
process-listing pipeline, the outcome of the socket-listing pipeline,
and the outcome of the probe curl call as a function of the token and
the port interpolated into its command line. -/
structure Env where
  psExec : ExecResult
  lsofExec : ExecResult
  probe : String → String → ExecResult

/-- The record returned by discoverServer. -/
structure ServerInfo where
  pid : String
  token : String
  port : String
deriving DecidableEq

/-- Whether a probe of the given port succeeds: the call did not throw
and its trimmed output is the string 200. -/
def probeSucc (f : String → ExecResult) (port : String) : Bool :=
  match f port with
  | ExecResult.ok out => decide (jsTrim out = "200")
  | ExecResult.err => false

/-- The per-port probe loop of discoverServer: ports are tried in order;
a thrown probe is swallowed and the next port is tried; the first port
whose trimmed output is 200 is returned with the pid and token.  The
second component is the list of ports actually probed, in order. -/
def probeLoop (f : String → ExecResult) (pid token : String) :
    List String → Option ServerInfo × List String
  | [] => (none, [])
  | port :: rest =>
    match f port with
    | ExecResult.err =>
      let r := probeLoop f pid token rest
      (r.1, port :: r.2)
    | ExecResult.ok out =>
      if jsTrim out = "200" then (some ⟨pid, token, port⟩, [port])
      else
        let r := probeLoop f pid token rest
        (r.1, port :: r.2)

/-- The process stage of discoverServer: run the process listing, take
the first line, extract the pid as the second whitespace-separated field
(it must parse as an integer) and the csrf token by the token pattern.
A thrown listing, an empty listing, a missing or non-numeric pid, or a
missing token all yield none. -/
def psStage (env : Env) : Option (String × String) :=
  match env.psExec with
  | ExecResult.err => none
  | ExecResult.ok raw =>
    if jsTrim raw = "" then none
    else
      let firstLine := firstLineOf raw
      match (splitWsTrimmed (jsTrim firstLine))[1]? with
      | none => none
      | some pid =>
        if pid = "" then none
        else if jsParseIntIsNaN pid then none
        else
          match csrfScan firstLine.data with
          | none => none
          | some token => some (pid, token)

/-- The socket stage of discoverServer: run the socket listing and
extract the candidate ports.  A thrown listing, an empty listing, or no
matching port line yields none. -/
def portsStage (env : Env) : Option (List String) :=
  match env.lsofExec with
  | ExecResult.err => none
  | ExecResult.ok raw =>
    if jsTrim raw = "" then none
    else
      let ports := extractPorts raw
      if ports.isEmpty then none else some ports

/-- Observable events of one fetch run: the process enumeration, the
socket enumeration, each probe (with the token and port interpolated
into the curl call), and the final metrics request. -/
inductive Event where
  | psEnum
  | lsofEnum
  | probed (token port : String)
  | metricsRequest (token port : String)

/-- Model of discoverServer together with the list of events it
performs.  The whole body sits in a try block whose catch returns null,
so every failure of a stage collapses to none and nothing escapes. -/
def discoverServerRun (env : Env) : Option ServerInfo × List Event :=
  match psStage env with
  | none => (none, [Event.psEnum])
  | some (pid, token) =>
    match portsStage env with
    | none => (none, [Event.psEnum, Event.lsofEnum])
    | some ports =>
      let r := probeLoop (env.probe token) pid token ports
      (r.1, Event.psEnum :: Event.lsofEnum :: r.2.map (Event.probed token))

/-- Model of discoverServer: the returned value only. -/
def discoverServer (env : Env) : Option ServerInfo :=
  (discoverServerRun env).1

/-- What the single metrics HTTP exchange of fetchMetrics does: a
response with a status code and a collected body, a socket-level error
event carrying a message, or the expiry of the request timeout. -/
inductive HttpOutcome where
  | response (status : Nat) (body : String)
  | socketError (msg : String)
  | timeout

/-- The error kinds of the fetch layer, following the taxonomy of the
design: the locator NotFound error, a network failure carrying the full
message built by the code, and the parse failure. -/
inductive FetchError where
  | notFound
  | networkFailure (msg : String)
  | parseFailure

/-- The message carried by each error, as the literal strings in the
code. -/
def errMessage : FetchError → String
  | FetchError.notFound =>
    "Could not find Antigravity Language Server. Make sure the IDE is running."
  | FetchError.networkFailure m => m
  | FetchError.parseFailure => "Failed to parse metrics response"

/-- Result of one fetchMetrics call: the promise resolves with the
parsed value or rejects with an error. -/
inductive FetchResult where
  | resolved (v : Json)
  | rejected (e : FetchError)

/-- Whether a fetch result is a rejection of the network-failure kind. -/
def isNetworkRejection : FetchResult → Bool
  | FetchResult.rejected (FetchError.networkFailure _) => true
  | _ => false

/-- The probe curl call timeout in milliseconds, from the execSync
options of discoverServer. -/
def probeTimeoutMs : Nat := 3000

/-- The metrics request timeout in milliseconds, from req.setTimeout in
fetchMetrics. -/
def fetchTimeoutMs : Nat := 10000

/-- The response handling of fetchMetrics: the status code of a response
is never inspected; the collected body is parsed as JSON and the parse
result resolved, a parse throw rejects with the parse failure; a socket
error event rejects with the network failure message built from the
underlying cause; the timeout destroys the request (second component
true) and rejects with the timeout message. -/
def handleOutcome : HttpOutcome → FetchResult × Bool
  | HttpOutcome.response _ body =>
    match jsonParse body with
    | some v => (FetchResult.resolved v, false)
    | none => (FetchResult.rejected FetchError.parseFailure, false)
  | HttpOutcome.socketError m =>
    (FetchResult.rejected (FetchError.networkFailure ("Failed to fetch metrics: " ++ m)),
      false)
  | HttpOutcome.timeout =>
    (FetchResult.rejected (FetchError.networkFailure "Request timed out"), true)

/-- Model of fetchMetrics together with its event list: discovery is
performed first and unconditionally on every call; a failed discovery
rejects with the NotFound error; otherwise the metrics request is issued
against the discovered endpoint and handled by handleOutcome. -/
def fetchMetricsRun (env : Env) (outcome : HttpOutcome) :
    (FetchResult × Bool) × List Event :=
  let d := discoverServerRun env
  match d.1 with
  | none => ((FetchResult.rejected FetchError.notFound, false), d.2)
  | some info =>
    (handleOutcome outcome, d.2 ++ [Event.metricsRequest info.token info.port])

/-- Model of fetchMetrics: the result and the destroyed flag. -/
def fetchMetrics (env : Env) (outcome : HttpOutcome) : FetchResult × Bool :=
  (fetchMetricsRun env outcome).1

/-- The event list of one fetchMetrics call. -/
def fetchTrace (env : Env) (outcome : HttpOutcome) : List Event :=
  (fetchMetricsRun env outcome).2

/-- Whether an event is the start of a discovery (the process
enumeration that opens discoverServer). -/
def isDiscoveryStart : Event → Bool
  | Event.psEnum => true
  | _ => false

/-- Number of discovery invocations recorded in an event list. -/
def countDiscoveries (t : List Event) : Nat :=
  t.countP isDiscoveryStart

/-- Model of refreshData from the extension entry point, restricted to
the cachedData variable and the surfaced message: the cached snapshot is
assigned only from a resolved fetch; a rejected fetch leaves it
untouched and surfaces the error message.  The webview updates are
presentation effects outside this state. -/
def refreshData (cached : Json) (result : FetchResult) : Json × Option String :=
  match result with
  | FetchResult.resolved v => (v, none)
  | FetchResult.rejected e => (cached, some (errMessage e))

/-- JavaScript numbers as needed by formatResetTime: either NaN or an
integer number of milliseconds (all quantities in that function are
integral when not NaN). -/
inductive JsNum where
  | nan
  | int (n : Int)

/-- Subtraction of an integer from a JavaScript number; NaN propagates. -/
def jsSub : JsNum → Int → JsNum
  | JsNum.nan, _ => JsNum.nan
  | JsNum.int a, b => JsNum.int (a - b)

/-- The comparison diffMs less-or-equal zero: false on NaN, as every
JavaScript comparison with NaN is. -/
def jsLeZero : JsNum → Bool
  | JsNum.nan => false
  | JsNum.int n => decide (n ≤ 0)

/-- The comparison strictly-greater-than zero: false on NaN. -/
def jsGtZero : JsNum → Bool
  | JsNum.nan => false
  | JsNum.int n => decide (0 < n)

/-- Math.floor of the quotient by a positive constant; NaN propagates. -/
def jsFloorDiv : JsNum → Int → JsNum
  | JsNum.nan, _ => JsNum.nan
  | JsNum.int n, d => JsNum.int (Int.fdiv n d)

/-- The JavaScript remainder operator; NaN propagates. -/
def jsMod : JsNum → Int → JsNum
  | JsNum.nan, _ => JsNum.nan
  | JsNum.int n, d => JsNum.int (Int.tmod n d)

/-- Template-literal rendering of a JavaScript number: NaN renders as
the string NaN. -/
def jsNumStr : JsNum → String
  | JsNum.nan => "NaN"
  | JsNum.int n => toString n

/-- Model of formatResetTime.  The first argument is the value of
getTime on the parsed reset date: per JavaScript Date semantics a
resetTime string that does not parse as a valid date gives an invalid
date whose getTime is NaN.  The second argument is the current time in
milliseconds. -/
def formatResetTime (resetMs : JsNum) (nowMs : Int) : String :=
  let diffMs := jsSub resetMs nowMs
  if jsLeZero diffMs then "resetting..."
  else
    let diffMins := jsFloorDiv diffMs 60000
    let diffHours := jsFloorDiv diffMins 60
    let diffDays := jsFloorDiv diffHours 24
    if jsGtZero diffDays then
      jsNumStr diffDays ++ "d " ++ jsNumStr (jsMod diffHours 24) ++ "h"
    else if jsGtZero diffHours then
      jsNumStr diffHours ++ "h " ++ jsNumStr (jsMod diffMins 60) ++ "m"
    else jsNumStr diffMins ++ "m"

/-- No process matches the signature: the process-listing pipeline threw
(the final grep matched nothing) or produced only whitespace. -/
def noMatchingProcess (env : Env) : Prop :=
  env.psExec = ExecResult.err ∨
    ∃ raw, env.psExec = ExecResult.ok raw ∧ jsTrim raw = ""

/-- The matched process line carries no extractable csrf token. -/
def noExtractableToken (env : Env) : Prop :=
  ∀ raw, env.psExec = ExecResult.ok raw → csrfScan (firstLineOf raw).data = none

/-- No loopback listening ports: the socket-listing pipeline threw,
produced only whitespace, or no line matched the port pattern. -/
def noListeningPorts (env : Env) : Prop :=
  env.lsofExec = ExecResult.err ∨
    ∃ raw, env.lsofExec = ExecResult.ok raw ∧
      (jsTrim raw = "" ∨ extractPorts raw = [])

/-- No candidate port answers the probe with a 200. -/
def noPortAnswers (env : Env) : Prop :=
  ∀ token port, probeSucc (env.probe token) port = false

/-- A concrete healthy environment: one matching process line with pid
123 and token abc-123, one loopback listening socket on port 42100, and
a probe that answers 200 exactly for that token and port. -/
def env0 : Env where
  psExec := ExecResult.ok "u 123 l --csrf_token abc-123"
  lsofExec := ExecResult.ok "TCP 127.0.0.1:42100 (LISTEN)"
  probe := fun token port =>
    if token = "abc-123" && port = "42100" then ExecResult.ok "200"
    else ExecResult.err

/-- The endpoint discovered in the healthy environment. -/
def info0 : ServerInfo where
  pid := "123"
  token := "abc-123"
  port := "42100"

/-- A concrete environment in which every operating-system call throws. -/
def envErr : Env where
  psExec := ExecResult.err
  lsofExec := ExecResult.err
  probe := fun _ _ => ExecResult.err

/-- A concrete probe in which ports 7000, 7001 and 7003 answer 404 and
port 7002 answers 200. -/
def probe3 : String → ExecResult :=
  fun port => if port = "7002" then ExecResult.ok "200" else ExecResult.ok "404"

/-- A concrete probe in which port 9001 answers 200 and every other port
throws (connection refused). -/
def probe5 : String → ExecResult :=
  fun port => if port = "9001" then ExecResult.ok "200" else ExecResult.err

/-- One-step unfolding of the probe loop on a nonempty candidate list. -/
theorem probeLoop_cons (f : String → ExecResult) (pid token port : String)
    (rest : List String) :
    probeLoop f pid token (port :: rest)
      = match f port with
        | ExecResult.err =>
          ((probeLoop f pid token rest).1, port :: (probeLoop f pid token rest).2)
        | ExecResult.ok out =>
          if jsTrim out = "200" then (some ⟨pid, token, port⟩, [port])
          else ((probeLoop f pid token rest).1, port :: (probeLoop f pid token rest).2) :=
  rfl

/-- If no port ever answers 200, the probe loop returns none. -/
theorem probeLoop_none_of_all_fail (f : String → ExecResult) (pid token : String)
    (h : ∀ port, probeSucc f port = false) :
    ∀ l : List String, (probeLoop f pid token l).1 = none := by
  intro l
  induction l with
  | nil => rfl
  | cons port rest ih =>
    have hp := h port
    unfold probeSucc at hp
    rw [probeLoop_cons]
    cases hf : f port with
    | err => simpa using ih
    | ok out =>
      rw [hf] at hp
      simp only [decide_eq_false_iff_not] at hp
      simp only [hp, if_false]
      simpa using ih

/-- Whatever record the probe loop returns was built from the pid and
token it was given and from a port whose probe succeeded. -/
theorem probeLoop_sound (f : String → ExecResult) (pid token : String) :
    ∀ (l : List String) (info : ServerInfo),
      (probeLoop f pid token l).1 = some info →
      info.pid = pid ∧ info.token = token ∧ probeSucc f info.port = true := by
  intro l
  induction l with
  | nil => intro info h; simp [probeLoop] at h
  | cons port rest ih =>
    intro info h
    rw [probeLoop_cons] at h
    cases hf : f port with
    | err =>
      rw [hf] at h
      exact ih info (by simpa using h)
    | ok out =>
      rw [hf] at h
      by_cases hco : jsTrim out = "200"
      · simp only [hco, if_true] at h
        have : info = ⟨pid, token, port⟩ := by
          cases h; rfl
        subst this
        refine ⟨rfl, rfl, ?_⟩
        unfold probeSucc
        rw [hf]
        simp [hco]
      · simp only [hco, if_false] at h
        exact ih info (by simpa using h)

/-- A run of ports that all fail to answer 200 is probed in order and
skipped: the loop continues on the remaining candidates. -/
theorem probeLoop_append_fail (f : String → ExecResult) (pid token : String) :
    ∀ (pre l : List String), (∀ q ∈ pre, probeSucc f q = false) →
      probeLoop f pid token (pre ++ l)
        = ((probeLoop f pid token l).1, pre ++ (probeLoop f pid token l).2) := by
  intro pre
  induction pre with
  | nil => intro l _; simp
  | cons q pre ih =>
    intro l hfail
    have hq := hfail q (List.mem_cons_self q pre)
    have hrest : ∀ p ∈ pre, probeSucc f p = false :=
      fun p hp => hfail p (List.mem_cons_of_mem q hp)
    unfold probeSucc at hq
    show probeLoop f pid token (q :: (pre ++ l)) = _
    rw [probeLoop_cons]
    cases hf : f q with
    | err =>
      simp only []
      rw [ih l hrest]
      simp
    | ok out =>
      rw [hf] at hq
      simp only [decide_eq_false_iff_not] at hq
      simp only [hq, if_false]
      rw [ih l hrest]
      simp

/-- A port that answers 200 at the head of the candidate list is
selected immediately and is the only port probed. -/
theorem probeLoop_head_succ (f : String → ExecResult) (pid token : String)
    (p : String) (post : List String) (hp : probeSucc f p = true) :
    probeLoop f pid token (p :: post) = (some ⟨pid, token, p⟩, [p]) := by
  unfold probeSucc at hp
  rw [probeLoop_cons]
  cases hf : f p with
  | err => rw [hf] at hp; exact absurd hp (by simp)
  | ok out =>
    rw [hf] at hp
    simp only [decide_eq_true_eq] at hp
    simp [hp]

/-- C3: given an ordered candidate list in which exactly one port
answers 200, the probe loop probes the candidates in the given order up
to and including that port (and no further), stops at it, and returns
it as the selected endpoint regardless of how many failing candidates
precede it. -/
theorem probe_order_first_success (f : String → ExecResult) (pid token p : String)
    (pre post : List String)
    (hpre : ∀ q ∈ pre, probeSucc f q = false)
    (hp : probeSucc f p = true)
    (_hpost : ∀ q ∈ post, probeSucc f q = false) :
    probeLoop f pid token (pre ++ p :: post) = (some ⟨pid, token, p⟩, pre ++ [p]) := by
  rw [probeLoop_append_fail f pid token pre (p :: post) hpre,
    probeLoop_head_succ f pid token p post hp]

/-- C3 witness: with ports 7000 and 7001 answering 404, 7002 answering
200 and 7003 answering 404, the loop returns port 7002 and probes
exactly 7000, 7001, 7002 in order. -/
theorem probe_order_first_success_witness :
    (∀ q ∈ ["7000", "7001"], probeSucc probe3 q = false) ∧
    probeSucc probe3 "7002" = true ∧
    (∀ q ∈ ["7003"], probeSucc probe3 q = false) ∧
    probeLoop probe3 "123" "abc-123" ["7000", "7001", "7002", "7003"]
      = (some ⟨"123", "abc-123", "7002"⟩, ["7000", "7001", "7002"]) :=
  ⟨by decide, by decide, by decide,
    probe_order_first_success probe3 "123" "abc-123" "7002" ["7000", "7001"] ["7003"]
      (by decide) (by decide) (by decide)⟩

/-- C5: a probe that throws (connection refused, timeout) is swallowed:
the loop result on an erroring head port equals the result on the
remaining candidates, and when every preceding candidate throws while a
later one answers 200, discovery still succeeds with the later port; no
per-port error escapes (the loop is a total function into an option). -/
theorem probe_error_isolation :
    (∀ (f : String → ExecResult) (pid token q : String) (rest : List String),
      f q = ExecResult.err →
      (probeLoop f pid token (q :: rest)).1 = (probeLoop f pid token rest).1) ∧
    (∀ (f : String → ExecResult) (pid token : String) (qs : List String)
      (p : String) (post : List String),
      (∀ q ∈ qs, f q = ExecResult.err) → probeSucc f p = true →
      (probeLoop f pid token (qs ++ p :: post)).1 = some ⟨pid, token, p⟩) := by
  constructor
  · intro f pid token q rest hq
    rw [probeLoop_cons, hq]
  · intro f pid token qs p post hqs hp
    have hfail : ∀ q ∈ qs, probeSucc f q = false := by
      intro q hq
      unfold probeSucc
      rw [hqs q hq]
    rw [probeLoop_append_fail f pid token qs (p :: post) hfail,
      probeLoop_head_succ f pid token p post hp]

/-- C5 witness: with port 9000 throwing and port 9001 answering 200,
the loop skips the error and returns port 9001. -/
theorem probe_error_isolation_witness :
    probe5 "9000" = ExecResult.err ∧
    probeSucc probe5 "9001" = true ∧
    (probeLoop probe5 "123" "abc-123" ["9000", "9001"]).1
      = some ⟨"123", "abc-123", "9001"⟩ :=
  ⟨by decide, by decide,
    probe_error_isolation.2 probe5 "123" "abc-123" ["9000"] "9001" []
      (by decide) (by decide)⟩

/-- When no process matches, the process stage fails. -/
theorem psStage_none_of_noMatch (env : Env) (h : noMatchingProcess env) :
    psStage env = none := by
  rcases h with h | ⟨raw, hok, hemp⟩
  · unfold psStage
    rw [h]
  · unfold psStage
    rw [hok]
    simp [hemp]

/-- When the matched line carries no extractable token, the process
stage fails. -/
theorem psStage_none_of_noToken (env : Env) (h : noExtractableToken env) :
    psStage env = none := by
  cases he : env.psExec with
  | err =>
    unfold psStage
    rw [he]
  | ok raw =>
    have htok := h raw he
    simp only [psStage, he, htok]
    repeat' split
    all_goals rfl

/-- When no loopback listening ports are discoverable, the socket stage
fails. -/
theorem portsStage_none_of_noPorts (env : Env) (h : noListeningPorts env) :
    portsStage env = none := by
  rcases h with h | ⟨raw, hok, hcase⟩
  · unfold portsStage
    rw [h]
  · rcases hcase with hemp | hport
    · unfold portsStage
      rw [hok]
      simp [hemp]
    · simp only [portsStage, hok, hport, List.isEmpty_nil, if_true]
      split
      · rfl
      · rfl

/-- A failed process stage makes discovery return null. -/
theorem discover_none_of_psStage_none (env : Env) (h : psStage env = none) :
    discoverServer env = none := by
  unfold discoverServer discoverServerRun
  rw [h]

/-- A failed socket stage makes discovery return null. -/
theorem discover_none_of_portsStage_none (env : Env) (h : portsStage env = none) :
    discoverServer env = none := by
  unfold discoverServer discoverServerRun
  cases hps : psStage env with
  | none => rfl
  | some pr =>
    obtain ⟨pid, token⟩ := pr
    rw [h]

/-- When no port answers the probe, discovery returns null. -/
theorem discover_none_of_noProbe (env : Env) (h : noPortAnswers env) :
    discoverServer env = none := by
  unfold discoverServer discoverServerRun
  cases hps : psStage env with
  | none => rfl
  | some pr =>
    obtain ⟨pid, token⟩ := pr
    cases hpo : portsStage env with
    | none => rfl
    | some ports =>
      dsimp only
      exact probeLoop_none_of_all_fail (env.probe token) pid token
        (fun port => h token port) ports

/-- A failed discovery makes fetchMetrics reject with the NotFound
error (and nothing else: the request is never issued). -/
theorem fetch_notFound_of_discover_none (env : Env) (o : HttpOutcome)
    (h : discoverServer env = none) :
    fetchMetrics env o = (FetchResult.rejected FetchError.notFound, false) := by
  unfold discoverServer at h
  simp [fetchMetrics, fetchMetricsRun, h]

/-- C4: when no process matches the signature, or the matched process
has no extractable token, or it has no loopback listening ports, or no
candidate port answers 200, discovery returns null and fetchMetrics
fails with the single NotFound error kind.  Discovery is a total
function into an option (its body sits under a catch-all), so no other
exception escapes the locate operation. -/
theorem locate_notfound_total (env : Env) (outcome : HttpOutcome)
    (h : noMatchingProcess env ∨ noExtractableToken env ∨
      noListeningPorts env ∨ noPortAnswers env) :
    discoverServer env = none ∧
    fetchMetrics env outcome = (FetchResult.rejected FetchError.notFound, false) := by
  have hnone : discoverServer env = none := by
    rcases h with h | h | h | h
    · exact discover_none_of_psStage_none env (psStage_none_of_noMatch env h)
    · exact discover_none_of_psStage_none env (psStage_none_of_noToken env h)
    · exact discover_none_of_portsStage_none env (portsStage_none_of_noPorts env h)
    · exact discover_none_of_noProbe env h
  exact ⟨hnone, fetch_notFound_of_discover_none env outcome hnone⟩

/-- C4 witness: in the environment where every operating-system call
throws, no process matches and fetchMetrics rejects NotFound. -/
theorem locate_notfound_total_witness :
    noMatchingProcess envErr ∧
    discoverServer envErr = none ∧
    fetchMetrics envErr HttpOutcome.timeout
      = (FetchResult.rejected FetchError.notFound, false) :=
  ⟨Or.inl rfl,
    (locate_notfound_total envErr HttpOutcome.timeout (Or.inl (Or.inl rfl))).1,
    (locate_notfound_total envErr HttpOutcome.timeout (Or.inl (Or.inl rfl))).2⟩

/-- C2: every endpoint discoverServer returns passed the probe check
before being returned: its token is exactly the token extracted in the
process stage, and the probe of its port with that token answered a
trimmed 200; an endpoint that did not pass this check is never
returned. -/
theorem locator_endpoint_validated (env : Env) (info : ServerInfo)
    (h : discoverServer env = some info) :
    (∃ pid, psStage env = some (pid, info.token)) ∧
    probeSucc (env.probe info.token) info.port = true := by
  unfold discoverServer discoverServerRun at h
  cases hps : psStage env with
  | none =>
    rw [hps] at h
    simp at h
  | some pr =>
    obtain ⟨pid, token⟩ := pr
    rw [hps] at h
    cases hpo : portsStage env with
    | none =>
      rw [hpo] at h
      simp at h
    | some ports =>
      rw [hpo] at h
      dsimp only at h
      obtain ⟨hpid, htok, hsucc⟩ :=
        probeLoop_sound (env.probe token) pid token ports info h
      refine ⟨⟨pid, ?_⟩, ?_⟩
      · rw [htok]
      · rw [htok]
        exact hsucc

/-- C2 witness: in the healthy environment the discovered endpoint is
port 42100 with token abc-123, and its probe answered 200. -/
theorem locator_endpoint_validated_witness :
    discoverServer env0 = some info0 ∧
    (∃ pid, psStage env0 = some (pid, info0.token)) ∧
    probeSucc (env0.probe info0.token) info0.port = true :=
  ⟨rfl,
    (locator_endpoint_validated env0 info0 rfl).1,
    (locator_endpoint_validated env0 info0 rfl).2⟩

/-- C1 counterexample: in the healthy environment a metrics response
with the non-success status 500 and a parseable body is resolved into a
snapshot; it is not rejected with a NetworkFailure, refuting the claim
that a non-success status always fails with NetworkFailure. -/
theorem fetch_nonsuccess_status_cex :
    discoverServer env0 = some info0 ∧
    fetchMetrics env0 (HttpOutcome.response 500 "\x7b\x7d")
      = (FetchResult.resolved (Json.obj []), false) ∧
    isNetworkRejection (fetchMetrics env0 (HttpOutcome.response 500 "\x7b\x7d")).1
      = false :=
  ⟨rfl, rfl, rfl⟩

/-- C1 amended: fetchMetrics never inspects the HTTP status code, so a
non-success response is handled exactly like a 200 response; the
NetworkFailure carrying the underlying cause arises from socket-level
error events (and the timeout), not from the status. -/
theorem fetch_status_blind :
    (∀ (env : Env) (s1 s2 : Nat) (body : String),
      fetchMetrics env (HttpOutcome.response s1 body)
        = fetchMetrics env (HttpOutcome.response s2 body)) ∧
    (∀ (env : Env) (info : ServerInfo) (msg : String),
      discoverServer env = some info →
      fetchMetrics env (HttpOutcome.socketError msg)
        = (FetchResult.rejected
            (FetchError.networkFailure ("Failed to fetch metrics: " ++ msg)),
          false)) := by
  constructor
  · intro env s1 s2 body
    cases hd : (discoverServerRun env).1 with
    | none => simp [fetchMetrics, fetchMetricsRun, hd]
    | some info => simp [fetchMetrics, fetchMetricsRun, hd, handleOutcome]
  · intro env info msg h
    unfold discoverServer at h
    simp [fetchMetrics, fetchMetricsRun, h, handleOutcome]

/-- C1 witness: a socket error in the healthy environment rejects with
the network-failure message built from the underlying cause. -/
theorem fetch_status_blind_witness :
    discoverServer env0 = some info0 ∧
    fetchMetrics env0 (HttpOutcome.socketError "read ECONNRESET")
      = (FetchResult.rejected
          (FetchError.networkFailure "Failed to fetch metrics: read ECONNRESET"),
        false) :=
  ⟨rfl, fetch_status_blind.2 env0 info0 "read ECONNRESET" rfl⟩

/-- C6 counterexample: the empty JSON object parses but does not have
the expected MetricsResponse top-level structure, yet fetchMetrics
resolves it as a snapshot instead of failing with ParseFailure,
refuting the claim that a well-formed body of the wrong shape fails. -/
theorem parse_wrong_shape_cex :
    jsonParse "\x7b\x7d" = some (Json.obj []) ∧
    isMetricsResponseShape (Json.obj []) = false ∧
    fetchMetrics env0 (HttpOutcome.response 200 "\x7b\x7d")
      = (FetchResult.resolved (Json.obj []), false) :=
  ⟨rfl, rfl, rfl⟩

/-- C6 amended: on a 200 response fetchMetrics fails with ParseFailure
exactly when the body is not syntactically valid JSON; any body that
parses as JSON, whatever its shape, is resolved unchanged as the
snapshot (structural passthrough, with no reshaping and no validation,
not even of the top-level shape). -/
theorem parse_passthrough (env : Env) (info : ServerInfo) (s : Nat) (body : String)
    (h : discoverServer env = some info) :
    (∀ v, jsonParse body = some v →
      fetchMetrics env (HttpOutcome.response s body)
        = (FetchResult.resolved v, false)) ∧
    (jsonParse body = none →
      fetchMetrics env (HttpOutcome.response s body)
        = (FetchResult.rejected FetchError.parseFailure, false)) := by
  unfold discoverServer at h
  constructor
  · intro v hv
    simp [fetchMetrics, fetchMetricsRun, h, handleOutcome, hv]
  · intro hv
    simp [fetchMetrics, fetchMetricsRun, h, handleOutcome, hv]

/-- C6 witness: the body not-json is not valid JSON and yields the
ParseFailure rejection, not a crash. -/
theorem parse_passthrough_witness :
    discoverServer env0 = some info0 ∧
    jsonParse "not-json" = none ∧
    fetchMetrics env0 (HttpOutcome.response 200 "not-json")
      = (FetchResult.rejected FetchError.parseFailure, false) :=
  ⟨rfl, rfl, (parse_passthrough env0 info0 200 "not-json" rfl).2 rfl⟩

/-- C7: when the metrics request timeout expires, fetchMetrics destroys
the in-flight request (the second component is true) and rejects with a
NetworkFailure carrying the timeout-specific message; the timeout is
10000 milliseconds, longer than the discovery probe timeout. -/
theorem timeout_network_failure :
    (∀ (env : Env) (info : ServerInfo), discoverServer env = some info →
      fetchMetrics env HttpOutcome.timeout
        = (FetchResult.rejected (FetchError.networkFailure "Request timed out"),
          true)) ∧
    probeTimeoutMs < fetchTimeoutMs ∧ fetchTimeoutMs = 10000 := by
  refine ⟨?_, by decide, rfl⟩
  intro env info h
  unfold discoverServer at h
  simp [fetchMetrics, fetchMetricsRun, h, handleOutcome]

/-- C7 witness: the timeout event in the healthy environment. -/
theorem timeout_network_failure_witness :
    discoverServer env0 = some info0 ∧
    fetchMetrics env0 HttpOutcome.timeout
      = (FetchResult.rejected (FetchError.networkFailure "Request timed out"),
        true) :=
  ⟨rfl, timeout_network_failure.1 env0 info0 rfl⟩

/-- Probe events contribute no discovery start. -/
theorem countP_probed_map (token : String) (l : List String) :
    List.countP isDiscoveryStart (l.map (Event.probed token)) = 0 := by
  induction l with
  | nil => rfl
  | cons p rest ih =>
    simp [List.countP_cons, isDiscoveryStart, ih]

/-- Every discovery run records exactly one discovery start. -/
theorem countDiscoveries_discoverRun (env : Env) :
    countDiscoveries (discoverServerRun env).2 = 1 := by
  unfold discoverServerRun
  cases hps : psStage env with
  | none => rfl
  | some pr =>
    obtain ⟨pid, token⟩ := pr
    cases hpo : portsStage env with
    | none => rfl
    | some ports =>
      dsimp only
      simp [countDiscoveries, List.countP_cons, isDiscoveryStart, countP_probed_map]

/-- Every fetchMetrics call records exactly one discovery. -/
theorem countDiscoveries_fetchTrace (env : Env) (o : HttpOutcome) :
    countDiscoveries (fetchTrace env o) = 1 := by
  have hd := countDiscoveries_discoverRun env
  simp only [fetchTrace, fetchMetricsRun]
  cases hm : (discoverServerRun env).1 with
  | none => exact hd
  | some info =>
    simp only [countDiscoveries, List.countP_append] at hd ⊢
    simp [isDiscoveryStart, hd]

/-- C8: no discovered endpoint is cached or reused across invocations:
two sequential fetchMetrics calls each independently record a full
discovery, so the combined event list holds exactly two discovery
invocations. -/
theorem no_endpoint_reuse (env : Env) (o1 o2 : HttpOutcome) :
    countDiscoveries (fetchTrace env o1 ++ fetchTrace env o2) = 2 := by
  have h1 := countDiscoveries_fetchTrace env o1
  have h2 := countDiscoveries_fetchTrace env o2
  simp only [countDiscoveries, List.countP_append] at h1 h2 ⊢
  omega

/-- C9: the cached snapshot held by the extension is assigned only from
a resolved fetch; when a refresh ends in a rejection the cache is left
exactly as it was, never overwritten with stale, partial or empty
data. -/
theorem failed_refresh_keeps_cache :
    (∀ (cached : Json) (env : Env) (outcome : HttpOutcome) (e : FetchError),
      (fetchMetrics env outcome).1 = FetchResult.rejected e →
      (refreshData cached (fetchMetrics env outcome).1).1 = cached) ∧
    (∀ (cached v : Json), refreshData cached (FetchResult.resolved v) = (v, none)) := by
  constructor
  · intro cached env outcome e h
    rw [h]
    rfl
  · intro cached v
    rfl

/-- C9 witness: a refresh whose fetch fails with NotFound leaves the
concrete cached snapshot unchanged. -/
theorem failed_refresh_keeps_cache_witness :
    (fetchMetrics envErr HttpOutcome.timeout).1
      = FetchResult.rejected FetchError.notFound ∧
    (refreshData (Json.str "cached-snapshot")
        (fetchMetrics envErr HttpOutcome.timeout).1).1
      = Json.str "cached-snapshot" :=
  ⟨rfl,
    failed_refresh_keeps_cache.1 (Json.str "cached-snapshot") envErr
      HttpOutcome.timeout FetchError.notFound rfl⟩

/-- C10: a resetTime string that does not parse as a valid date gives an
invalid date whose getTime is NaN; formatResetTime then returns the
literal string NaNm for every current time: the NaN difference fails
the less-or-equal-zero test and both strictly-positive tests, falling
through to the minutes branch, and never yields resetting or a
well-formed relative time. -/
theorem invalid_reset_time_nanm (nowMs : Int) :
    formatResetTime JsNum.nan nowMs = "NaNm" := rfl
